import Mathlib

/-!
Verification of the quote pricing/versioning engine of a jeweller
administration tool (Express + Prisma backend, React frontend).

The embedding translates, into Lean:

* the frontend Pricing Calculator of `QuoteDetailPage.tsx` (pure
  arithmetic over the cost inputs);
* the backend quote routes of `routes/quotes.ts`: quote creation,
  direct update (PUT), status update (PATCH), line-item add / update /
  remove, restore-to-version, and the version-snapshot writes.

Monetary amounts are modelled as exact rationals (the JS code computes
with IEEE doubles and the database stores fixed-precision decimals;
both are below the abstraction of this development, which follows the
formulas the code evaluates).  Record ids are natural numbers standing
for the opaque cuid strings; a missing/`undefined` request field is
`Option.none`.  Each route handler becomes a function from the
pre-state to `Except ApiError` of the post-state: an `error` result
performs no write at all, mirroring the handlers, which return before
their first write on every error path.
-/

namespace TDV

/-! ## Frontend Pricing Calculator (`QuoteDetailPage.tsx`) -/

/-- One diamond line of the calculator (`DiamondLine` in the page);
`sizeMm`/`sizeCt`/`colour`/`inclusions`/`cutType` are display-only. -/
structure DiamondLine where
  sizeMm : String
  sizeCt : String
  colour : String
  inclusions : String
  cutType : String
  costEach : ℚ
  quantity : ℚ
  deriving Repr, DecidableEq

/-- One extra-component line of the calculator (`ComponentLine`). -/
structure ComponentLine where
  description : String
  costExVat : ℚ
  addVat : Bool
  deriving Repr, DecidableEq

/-- The cost inputs held in the page's state that feed the
"Calculations" block. -/
structure CalcInputs where
  labourHours : ℚ
  labourRate : ℚ
  materialWeight : ℚ
  materialPrice : ℚ
  materialAddVat : Bool
  materialLossFactor : ℚ
  diamonds : List DiamondLine
  components : List ComponentLine
  settingCost : ℚ
  packagingCost : ℚ
  courierCost : ℚ
  markupPercent : ℚ
  costPriceMultiplier : ℚ
  deriving Repr, DecidableEq

/-- `const labourTotal = labourHours * labourRate` -/
def labourTotal (i : CalcInputs) : ℚ := i.labourHours * i.labourRate

/-- `const materialBase = materialWeight * materialPrice` -/
def materialBase (i : CalcInputs) : ℚ := i.materialWeight * i.materialPrice

/-- `const materialVat = materialAddVat ? materialBase * 0.15 : 0` -/
def materialVat (i : CalcInputs) : ℚ :=
  if i.materialAddVat then materialBase i * 0.15 else 0

/-- `const materialTotal = (materialBase + materialVat) * materialLossFactor` -/
def materialTotal (i : CalcInputs) : ℚ :=
  (materialBase i + materialVat i) * i.materialLossFactor

/-- `const diamondsTotal = diamonds.reduce((sum, d) => sum + (d.costEach * d.quantity), 0)` -/
def diamondsTotal (i : CalcInputs) : ℚ :=
  i.diamonds.foldl (fun sum d => sum + d.costEach * d.quantity) 0

/-- `const componentsTotal = components.reduce((sum, c) => sum + c.costExVat * (c.addVat ? 1.15 : 1), 0)` -/
def componentsTotal (i : CalcInputs) : ℚ :=
  i.components.foldl (fun sum c => sum + c.costExVat * (if c.addVat then 1.15 else 1)) 0

/-- `const subTotal = labourTotal + materialTotal + diamondsTotal + componentsTotal + settingCost + packagingCost + courierCost` -/
def subTotal (i : CalcInputs) : ℚ :=
  labourTotal i + materialTotal i + diamondsTotal i + componentsTotal i
    + i.settingCost + i.packagingCost + i.courierCost

/-- `const markupAmount = subTotal * (markupPercent / 100)` -/
def markupAmount (i : CalcInputs) : ℚ := subTotal i * (i.markupPercent / 100)

/-- `const retailPrice = subTotal + markupAmount` -/
def retailPrice (i : CalcInputs) : ℚ := subTotal i + markupAmount i

/-- `const costPrice = subTotal * costPriceMultiplier` -/
def costPrice (i : CalcInputs) : ℚ := subTotal i * i.costPriceMultiplier

/-! ## Backend data model (`prisma/migrations/.../migration.sql`, `routes/quotes.ts`)

Ids stand for the cuid strings of the database; `Option.none` in a
request field models a JS `undefined`. -/

/-- One entry of a line item's `accessories` JSON array: the code reads
`acc.price || 0`, so the price may be absent. -/
structure Accessory where
  name : String
  price : Option ℚ
  deriving Repr, DecidableEq

/-- A persisted `quote_items` row (fields written by the routes). -/
structure QuoteItem where
  id : ℕ
  quoteId : ℕ
  itemId : Option ℕ
  description : String
  quantity : ℕ
  labourHours : ℚ
  labourRate : ℚ
  labourTotal : ℚ
  metalType : Option String
  metalKarat : Option ℕ
  metalGrams : ℚ
  metalPrice : ℚ
  metalTotal : ℚ
  accessories : Option (List Accessory)
  extrasTotal : ℚ
  unitPrice : ℚ
  lineTotal : ℚ
  notes : Option String
  sortOrder : ℕ
  deriving Repr, DecidableEq

/-- A persisted `quotes` row (fields written by the routes; the quote
status is kept as the string the routes compare against). -/
structure Quote where
  id : ℕ
  quoteNumber : String
  customerId : ℕ
  skuCode : Option String
  status : String
  subtotal : ℚ
  markupPct : ℚ
  markupAmt : ℚ
  discount : ℚ
  totalZar : ℚ
  notes : Option String
  validUntil : Option ℕ
  quoteData : Option String
  version : ℕ
  deriving Repr, DecidableEq

/-- A persisted `quote_versions` row; `snapshotJson` is the JSON
round-trip of the quote row, modelled as the quote value itself. -/
structure QuoteVersion where
  quoteId : ℕ
  versionNum : ℕ
  snapshotJson : Quote
  changeNotes : Option String
  deriving Repr, DecidableEq

/-- The database state visible to the routes for one quote: the quote
row, its `quote_items` rows and its `quote_versions` rows. -/
structure Db where
  quote : Quote
  items : List QuoteItem
  versions : List QuoteVersion
  deriving Repr, DecidableEq

/-- The `settings` rows the quote routes read (`default_labour_rate`,
`default_markup_pct`), already parsed to numbers. -/
structure Env where
  defaultLabourRate : Option ℚ
  defaultMarkupPct : Option ℚ
  deriving Repr, DecidableEq

/-- Whitespace test used by `strTrim`. -/
def isSpaceChar (c : Char) : Bool := c = ' ' || c = '\t' || c = '\n' || c = '\r'

/-- Model of the JS string `trim` applied by the `express-validator`
sanitizer chain `body(...).trim()`: drop whitespace from both ends. -/
def strTrim (s : String) : String :=
  String.mk (((s.data.dropWhile isSpaceChar).reverse.dropWhile isSpaceChar).reverse)

/-- Error responses of the routes: 404, 400 and 500 bodies. -/
inductive ApiError where
  | notFound (msg : String)
  | validation (msg : String)
  | server (msg : String)
  deriving Repr, DecidableEq

/-- The record returned by `calculateQuoteTotals`. -/
structure Totals where
  subtotal : ℚ
  markupAmt : ℚ
  totalZar : ℚ
  deriving Repr, DecidableEq

/-- `calculateQuoteTotals` (quotes.ts, lines 24-29). -/
def calculateQuoteTotals (items : List QuoteItem) (markupPct : ℚ) (discount : ℚ) :
    Totals :=
  let subtotal := items.foldl (fun sum item => sum + item.lineTotal) 0
  let markupAmt := subtotal * (markupPct / 100)
  let totalZar := subtotal + markupAmt - discount
  { subtotal := subtotal, markupAmt := markupAmt, totalZar := totalZar }

/-- The sum of `lineTotal` over a list of line items. -/
def itemsSubtotal (items : List QuoteItem) : ℚ := (items.map QuoteItem.lineTotal).sum

/-- Does a `quote_versions` row with key `(quoteId, versionNum)` exist?
Prisma raises a unique-constraint error from `quoteVersion.create`
exactly when it does. -/
def hasVersion (db : Db) (quoteId : ℕ) (versionNum : ℕ) : Bool :=
  db.versions.any (fun v => v.quoteId = quoteId && v.versionNum = versionNum)

/-- `prisma.quoteVersion.findUnique` on the composite key
`quoteId_versionNum`. -/
def findVersion (db : Db) (versionNum : ℕ) : Option QuoteVersion :=
  db.versions.find? (fun v => v.quoteId = db.quote.id && v.versionNum = versionNum)

/-- JS `a || b` on an optional string (an absent or empty string falls
back to the default). -/
def jsOrString (a : Option String) (b : String) : String :=
  match a with
  | some "" => b
  | some s => s
  | none => b

/-- JS `a || null` on an optional string (an empty string becomes null). -/
def jsOrNullString (a : Option String) : Option String :=
  match a with
  | some "" => none
  | o => o

/-- JS `a || null` on an optional number (a zero becomes null). -/
def jsOrNullNat (a : Option ℕ) : Option ℕ :=
  match a with
  | some 0 => none
  | o => o

/-- JS `a || 1` on an optional natural number (an absent or zero value
becomes 1); the route writes `const qty = quantity || 1`. -/
def jsOrOne (a : Option ℕ) : ℕ :=
  match a with
  | some 0 => 1
  | some n => n
  | none => 1

/-- `accessories.reduce((sum, acc) => sum + (acc.price || 0), 0)`. -/
def accessoriesSum (accs : List Accessory) : ℚ :=
  accs.foldl (fun sum acc => sum + acc.price.getD 0) 0

/-- Extras total of a (possibly absent) accessories array:
`if (accessories && Array.isArray(accessories))` then the reduce, else 0. -/
def extrasOf (accessories : Option (List Accessory)) : ℚ :=
  match accessories with
  | some accs => accessoriesSum accs
  | none => 0

/-! ## Route handlers (`routes/quotes.ts`)

Each handler is a function from the request and the pre-state to
`Except ApiError` of the post-state.  An `error` result writes
nothing: every error return in the source happens before the first
database write of that handler, except where noted (the restore
route's catch-all). -/

/-- Body of `POST /api/quotes`. -/
structure CreateQuoteRequest where
  customerId : Option ℕ
  skuCode : Option String
  markupPct : Option ℚ
  discount : Option ℚ
  notes : Option String
  validUntil : Option ℕ
  subtotal : Option ℚ
  totalZar : Option ℚ
  quoteData : Option String
  deriving Repr, DecidableEq

/-- `POST /api/quotes` (quotes.ts, lines 159-211).  `customerExists`
is the outcome of the `prisma.customer.findUnique` lookup; `id` and
`quoteNumber` stand for the generated cuid and the year-scoped quote
number.  The schema supplies the defaults `status = DRAFT`,
`markupAmt = 0` and `version = 1`, which the handler never sets. -/
def createQuote (env : Env) (customerExists : Bool) (req : CreateQuoteRequest)
    (id : ℕ) (quoteNumber : String) : Except ApiError Quote :=
  if req.customerId.isNone then Except.error (.validation "Customer is required")
  else if !customerExists then Except.error (.validation "Customer not found")
  else Except.ok {
    id := id
    quoteNumber := quoteNumber
    customerId := req.customerId.getD 0
    skuCode := jsOrNullString req.skuCode
    status := "DRAFT"
    subtotal := req.subtotal.getD 0
    markupPct :=
      match req.markupPct with
      | some m => m
      | none => match env.defaultMarkupPct with | some v => v | none => 30
    markupAmt := 0
    discount := req.discount.getD 0
    totalZar := req.totalZar.getD 0
    notes := req.notes
    validUntil := req.validUntil
    quoteData := jsOrNullString req.quoteData
    version := 1 }

/-- Body of `PUT /api/quotes/:id`. -/
structure UpdateQuoteRequest where
  customerId : Option ℕ
  skuCode : Option String
  markupPct : Option ℚ
  discount : Option ℚ
  notes : Option String
  validUntil : Option ℕ
  status : Option String
  subtotal : Option ℚ
  totalZar : Option ℚ
  quoteData : Option String
  changeNotes : Option String
  deriving Repr, DecidableEq

/-- `PUT /api/quotes/:id` (quotes.ts, lines 214-278).  When
`existing.version > 0` the handler first tries
`prisma.quoteVersion.create` with the pre-update row under a
`try/catch` whose catch block ignores the error, so a duplicate
`(quoteId, versionNum)` leaves the version list unchanged and the
update still proceeds.  The `data` object of `prisma.quote.update`
never mentions `markupAmt`. -/
def updateQuote (db : Db) (req : UpdateQuoteRequest) : Except ApiError Db :=
  if req.customerId.isNone then Except.error (.validation "Customer is required")
  else
    let existing := db.quote
    let versionsAfterSnapshot :=
      if 0 < existing.version then
        if hasVersion db existing.id existing.version then
          db.versions
        else
          db.versions ++ [{ quoteId := existing.id, versionNum := existing.version,
                            snapshotJson := existing,
                            changeNotes := some (jsOrString req.changeNotes "Quote updated") }]
      else db.versions
    Except.ok { db with
      versions := versionsAfterSnapshot
      quote := { existing with
        customerId := req.customerId.getD existing.customerId
        skuCode := match req.skuCode with | some s => some s | none => existing.skuCode
        markupPct := req.markupPct.getD existing.markupPct
        discount := req.discount.getD existing.discount
        subtotal := req.subtotal.getD existing.subtotal
        totalZar := req.totalZar.getD existing.totalZar
        quoteData :=
          match req.quoteData with
          | some "" => existing.quoteData
          | some s => some s
          | none => existing.quoteData
        notes := match req.notes with | some n => some n | none => existing.notes
        validUntil := match req.validUntil with | some d => some d | none => existing.validUntil
        status := jsOrString req.status existing.status
        version := existing.version + 1 } }

/-- The `validStatuses` array of `PATCH /api/quotes/:id/status`. -/
def validStatuses : List String :=
  ["DRAFT", "SENT", "ACCEPTED", "REJECTED", "EXPIRED", "CONVERTED"]

/-- `PATCH /api/quotes/:id/status` (quotes.ts, lines 548-578): checks
the status against `validStatuses`, then runs `prisma.quote.update`
with `data: { status }` only. -/
def updateStatus (db : Db) (status : Option String) : Except ApiError Db :=
  match status with
  | none =>
      Except.error (.validation
        "Status must be one of: DRAFT, SENT, ACCEPTED, REJECTED, EXPIRED, CONVERTED")
  | some s =>
      if validStatuses.contains s then
        Except.ok { db with quote := { db.quote with status := s } }
      else
        Except.error (.validation
          "Status must be one of: DRAFT, SENT, ACCEPTED, REJECTED, EXPIRED, CONVERTED")

/-- Body of `POST /api/quotes/:id/items`.  `metalPrice` is carried
because a client may send it; the handler destructures only
`itemId, description, quantity, labourHours, labourRate, metalType,
metalKarat, metalGrams, accessories, notes` and never reads it. -/
structure AddItemRequest where
  itemId : Option ℕ
  description : Option String
  quantity : Option ℕ
  labourHours : Option ℚ
  labourRate : Option ℚ
  metalType : Option String
  metalKarat : Option ℕ
  metalGrams : Option ℚ
  metalPrice : Option ℚ
  accessories : Option (List Accessory)
  notes : Option String
  deriving Repr, DecidableEq

/-- `POST /api/quotes/:id/items` (quotes.ts, lines 302-398).  The
`quoteItemValidation` chain requires a non-empty trimmed description
and, when present, an integer quantity of at least 1.  The handler
sets `let metalPrice = 0; let metalTotal = 0` ("manual entry - no
auto calculation") and never reassigns them. -/
def addItem (env : Env) (db : Db) (req : AddItemRequest) (newId : ℕ) :
    Except ApiError Db :=
  if strTrim (req.description.getD "") = "" then
    Except.error (.validation "Description is required")
  else if req.quantity = some 0 then
    Except.error (.validation "Quantity must be at least 1")
  else
    let finalLabourRate :=
      match req.labourRate with
      | some r => r
      | none => match env.defaultLabourRate with | some v => v | none => 350
    let labourHoursNum := req.labourHours.getD 0
    let labourTotal := labourHoursNum * finalLabourRate
    let metalPrice : ℚ := 0
    let metalTotal : ℚ := 0
    let extrasTotal := extrasOf req.accessories
    let qty := jsOrOne req.quantity
    let unitPrice := labourTotal + metalTotal + extrasTotal
    let lineTotal := unitPrice * (qty : ℚ)
    let sortOrder := (db.items.foldl (fun m it => max m it.sortOrder) 0) + 1
    let item : QuoteItem := {
      id := newId
      quoteId := db.quote.id
      itemId := jsOrNullNat req.itemId
      description := strTrim (req.description.getD "")
      quantity := qty
      labourHours := labourHoursNum
      labourRate := finalLabourRate
      labourTotal := labourTotal
      metalType := jsOrNullString req.metalType
      metalKarat := jsOrNullNat req.metalKarat
      metalGrams := req.metalGrams.getD 0
      metalPrice := metalPrice
      metalTotal := metalTotal
      accessories := req.accessories
      extrasTotal := extrasTotal
      unitPrice := unitPrice
      lineTotal := lineTotal
      notes := jsOrNullString req.notes
      sortOrder := sortOrder }
    let allItems := db.items ++ [item]
    let totals := calculateQuoteTotals allItems db.quote.markupPct db.quote.discount
    Except.ok { db with
      items := allItems
      quote := { db.quote with
        subtotal := totals.subtotal
        markupAmt := totals.markupAmt
        totalZar := totals.totalZar } }

/-- Body of `PUT /api/quotes/:id/items/:itemId`. -/
structure UpdateItemRequest where
  description : Option String
  quantity : Option ℕ
  labourHours : Option ℚ
  labourRate : Option ℚ
  metalType : Option String
  metalKarat : Option ℕ
  metalGrams : Option ℚ
  accessories : Option (List Accessory)
  notes : Option String
  deriving Repr, DecidableEq

/-- `PUT /api/quotes/:id/items/:itemId` (quotes.ts, lines 401-499).
Every omitted field defaults to the stored value; `metalPrice` is
always `Number(existing.metalPrice)` and `metalTotal` is recomputed as
`metalPrice * finalMetalGrams`. -/
def updateItem (db : Db) (itemId : ℕ) (req : UpdateItemRequest) :
    Except ApiError Db :=
  if strTrim (req.description.getD "") = "" then
    Except.error (.validation "Description is required")
  else if req.quantity = some 0 then
    Except.error (.validation "Quantity must be at least 1")
  else
    match db.items.find? (fun it => it.id = itemId && it.quoteId = db.quote.id) with
    | none => Except.error (.notFound "Quote item not found")
    | some existing =>
      let labourHoursNum := req.labourHours.getD existing.labourHours
      let finalLabourRate := req.labourRate.getD existing.labourRate
      let labourTotal := labourHoursNum * finalLabourRate
      let finalMetalType := match req.metalType with | some t => some t | none => existing.metalType
      let finalMetalKarat := match req.metalKarat with | some k => some k | none => existing.metalKarat
      let finalMetalGrams := req.metalGrams.getD existing.metalGrams
      let metalPrice := existing.metalPrice
      let metalTotal := metalPrice * finalMetalGrams
      let finalAccessories := match req.accessories with | some a => some a | none => existing.accessories
      let extrasTotal := extrasOf finalAccessories
      let qty := req.quantity.getD existing.quantity
      let unitPrice := labourTotal + metalTotal + extrasTotal
      let lineTotal := unitPrice * (qty : ℚ)
      let updated : QuoteItem := { existing with
        description := match req.description with | some d => strTrim d | none => existing.description
        quantity := qty
        labourHours := labourHoursNum
        labourRate := finalLabourRate
        labourTotal := labourTotal
        metalType := finalMetalType
        metalKarat := finalMetalKarat
        metalGrams := finalMetalGrams
        metalPrice := metalPrice
        metalTotal := metalTotal
        accessories := finalAccessories
        extrasTotal := extrasTotal
        unitPrice := unitPrice
        lineTotal := lineTotal
        notes := match req.notes with | some n => some n | none => existing.notes }
      let newItems := db.items.map (fun it => if it.id = itemId then updated else it)
      let totals := calculateQuoteTotals newItems db.quote.markupPct db.quote.discount
      Except.ok { db with
        items := newItems
        quote := { db.quote with
          subtotal := totals.subtotal
          markupAmt := totals.markupAmt
          totalZar := totals.totalZar } }

/-- `DELETE /api/quotes/:id/items/:itemId` (quotes.ts, lines 502-545):
delete the row, then recompute the parent totals from the remaining
rows. -/
def removeItem (db : Db) (itemId : ℕ) : Except ApiError Db :=
  match db.items.find? (fun it => it.id = itemId && it.quoteId = db.quote.id) with
  | none => Except.error (.notFound "Quote item not found")
  | some _ =>
    let newItems := db.items.filter (fun it => it.id != itemId)
    let totals := calculateQuoteTotals newItems db.quote.markupPct db.quote.discount
    Except.ok { db with
      items := newItems
      quote := { db.quote with
        subtotal := totals.subtotal
        markupAmt := totals.markupAmt
        totalZar := totals.totalZar } }

/-- `POST /api/quotes/:id/restore/:versionNum` (quotes.ts, lines
598-657).  The `prisma.quoteVersion.create` of the pre-restore state
is NOT wrapped in its own `try/catch`: a duplicate
`(quoteId, versionNum)` raises, the route's catch-all answers 500
`Failed to restore quote version`, and the quote row is never
updated.  On success, `prisma.quote.update` writes exactly
`markupPct, discount, notes, subtotal, markupAmt, totalZar` from the
snapshot plus `version: current.version + 1`. -/
def restore (db : Db) (versionNum : ℕ) : Except ApiError Db :=
  match findVersion db versionNum with
  | none => Except.error (.notFound "Version not found")
  | some version =>
    let snapshot := version.snapshotJson
    let current := db.quote
    if hasVersion db current.id current.version then
      Except.error (.server "Failed to restore quote version")
    else
      let preSnap : QuoteVersion :=
        { quoteId := current.id, versionNum := current.version,
          snapshotJson := current,
          changeNotes := some ("Restored to version " ++ toString versionNum) }
      Except.ok { db with
        versions := db.versions ++ [preSnap]
        quote := { current with
          markupPct := snapshot.markupPct
          discount := snapshot.discount
          notes := snapshot.notes
          subtotal := snapshot.subtotal
          markupAmt := snapshot.markupAmt
          totalZar := snapshot.totalZar
          version := current.version + 1 } }

/-- One line-item operation on a quote (the three item routes). -/
inductive ItemOp where
  | add (req : AddItemRequest) (newId : ℕ)
  | update (itemId : ℕ) (req : UpdateItemRequest)
  | remove (itemId : ℕ)
  deriving Repr, DecidableEq

/-- Dispatch one line-item operation to its route handler. -/
def applyItemOp (env : Env) (db : Db) : ItemOp → Except ApiError Db
  | .add req newId => addItem env db req newId
  | .update itemId req => updateItem db itemId req
  | .remove itemId => removeItem db itemId

/-- Run a sequence of line-item operations, collecting the state after
each successful one; a failed operation writes nothing and the
sequence continues from the unchanged state. -/
def runItemOps (env : Env) : Db → List ItemOp → List Db
  | _, [] => []
  | db, op :: ops =>
    match applyItemOp env db op with
    | .ok db2 => db2 :: runItemOps env db2 ops
    | .error _ => runItemOps env db ops

/-! ## Concrete fixtures

A quote in the state of spec scenario 2: one labour-only line of 900,
markup 30 percent, no discount, consistent totals, version 1, empty
version history. -/

/-- Settings store with neither default configured. -/
def env0 : Env := { defaultLabourRate := none, defaultMarkupPct := none }

/-- The labour-only line of spec scenario 2: 2 h at 450/h, quantity 1. -/
def item900 : QuoteItem := {
  id := 1, quoteId := 10, itemId := none, description := "Labour line",
  quantity := 1, labourHours := 2, labourRate := 450, labourTotal := 900,
  metalType := none, metalKarat := none, metalGrams := 0, metalPrice := 0,
  metalTotal := 0, accessories := none, extrasTotal := 0, unitPrice := 900,
  lineTotal := 900, notes := none, sortOrder := 1 }

/-- The quote row after scenario 2: subtotal 900, markup 30 percent,
markup amount 270, total 1170, version 1. -/
def quote0 : Quote := {
  id := 10, quoteNumber := "Q2026-0001", customerId := 1, skuCode := none,
  status := "DRAFT", subtotal := 900, markupPct := 30, markupAmt := 270,
  discount := 0, totalZar := 1170, notes := none, validUntil := none,
  quoteData := none, version := 1 }

/-- Database state of scenario 2 (no snapshots yet). -/
def db0 : Db := { quote := quote0, items := [item900], versions := [] }

/-- The add-item request of spec scenario 3: gold, 18 karat, 5 g at a
manually entered metal price of 1000, quantity 1, no labour, no
accessories. -/
def goldItemReq : AddItemRequest := {
  itemId := none, description := some "Gold band", quantity := some 1,
  labourHours := none, labourRate := none,
  metalType := some "gold", metalKarat := some 18, metalGrams := some 5,
  metalPrice := some 1000, accessories := none, notes := none }

/-- The database state scenario 3's add produces. -/
def dbAfterGold : Db := (addItem env0 db0 goldItemReq 2).toOption.getD db0

/-- A direct quote update supplying only `subtotal = 100` (plus the
customer id the validation chain requires). -/
def updSubtotalOnlyReq : UpdateQuoteRequest := {
  customerId := some 1, skuCode := none, markupPct := none, discount := none,
  notes := none, validUntil := none, status := none, subtotal := some 100,
  totalZar := none, quoteData := none, changeNotes := none }

/-- Spec scenario 5: a direct quote update supplying only
`markupPct = 40`. -/
def updMarkupReq : UpdateQuoteRequest := {
  customerId := some 1, skuCode := none, markupPct := some 40, discount := none,
  notes := none, validUntil := none, status := none, subtotal := none,
  totalZar := none, quoteData := none, changeNotes := none }

/-- The database state after applying `updMarkupReq` to `db0`. -/
def dbAfterUpd : Db := (updateQuote db0 updMarkupReq).toOption.getD db0

/-- A state in which the version history already holds a snapshot at
the quote's current version number (reachable through the racing
writers §5 of the spec describes: a concurrent direct update that read
the same `version` committed its snapshot first). -/
def dbDup : Db := {
  quote := quote0, items := [item900],
  versions := [{ quoteId := 10, versionNum := 1, snapshotJson := quote0,
                 changeNotes := some "Quote updated" }] }

/-- The database state after restoring `dbAfterUpd` to version 1. -/
def dbAfterRestore : Db := (restore dbAfterUpd 1).toOption.getD dbAfterUpd

/-- The line the scenario-3 add actually persists: metal price and
metal total are zero although the request supplied a price of 1000 for
5 g, so the line total is 0. -/
def goldItem : QuoteItem := {
  id := 2, quoteId := 10, itemId := none, description := "Gold band",
  quantity := 1, labourHours := 0, labourRate := 350, labourTotal := 0,
  metalType := some "gold", metalKarat := some 18, metalGrams := 5,
  metalPrice := 0, metalTotal := 0, accessories := none, extrasTotal := 0,
  unitPrice := 0, lineTotal := 0, notes := none, sortOrder := 2 }

/-- The state after the scenario-3 add, written out: the quote totals
are unchanged because the new line contributes 0. -/
def dbGold : Db := { quote := quote0, items := [item900, goldItem], versions := [] }

/-- The state after applying `updSubtotalOnlyReq` to `db0`, written
out: subtotal overwritten to 100, `markupAmt` and `totalZar` left at
270 and 1170, version bumped, snapshot of the pre-state appended. -/
def dbSub100 : Db := {
  quote := { quote0 with subtotal := 100, version := 2 },
  items := [item900],
  versions := [{ quoteId := 10, versionNum := 1, snapshotJson := quote0,
                 changeNotes := some "Quote updated" }] }

/-- The state after the status update to SENT on `db0`, written out:
only the status string differs and no snapshot row appears. -/
def dbSent : Db := {
  quote := { quote0 with status := "SENT" }, items := [item900], versions := [] }

/-! ## Helper lemmas -/

/-- A left fold accumulating `s + f x` computes the sum of the mapped list. -/
theorem foldl_add_eq_sum {α : Type} (f : α → ℚ) :
    ∀ (l : List α) (a : ℚ), l.foldl (fun s x => s + f x) a = a + (l.map f).sum := by
  intro l
  induction l with
  | nil => intro a; simp
  | cons x xs ih =>
      intro a
      simp only [List.foldl_cons, List.map_cons, List.sum_cons, ih]
      ring

/-- The subtotal computed by `calculateQuoteTotals` is the sum of the
line totals. -/
theorem calculateQuoteTotals_subtotal (items : List QuoteItem) (pct disc : ℚ) :
    (calculateQuoteTotals items pct disc).subtotal = itemsSubtotal items := by
  unfold calculateQuoteTotals itemsSubtotal
  simpa using foldl_add_eq_sum QuoteItem.lineTotal items 0

/-- Appending one item adds its line total to the subtotal sum. -/
theorem itemsSubtotal_append (items : List QuoteItem) (item : QuoteItem) :
    itemsSubtotal (items ++ [item]) = itemsSubtotal items + item.lineTotal := by
  unfold itemsSubtotal
  simp

/-- Every successful line-item operation leaves the parent quote with
totals recomputed by `calculateQuoteTotals` over the current line-item
set, and leaves `markupPct` and `discount` untouched. -/
theorem applyItemOp_ok_totals (env : Env) (db : Db) (op : ItemOp) (db2 : Db)
    (h : applyItemOp env db op = Except.ok db2) :
    db2.quote.subtotal = itemsSubtotal db2.items ∧
    db2.quote.markupAmt = db2.quote.subtotal * (db2.quote.markupPct / 100) ∧
    db2.quote.totalZar = db2.quote.subtotal + db2.quote.markupAmt - db2.quote.discount := by
  cases op with
  | add req newId =>
      simp only [applyItemOp, addItem] at h
      split at h
      · exact Except.noConfusion h
      split at h
      · exact Except.noConfusion h
      rw [Except.ok.injEq] at h
      subst h
      refine ⟨?_, rfl, rfl⟩
      dsimp only
      exact calculateQuoteTotals_subtotal _ _ _
  | update itemId req =>
      simp only [applyItemOp, updateItem] at h
      split at h
      · exact Except.noConfusion h
      split at h
      · exact Except.noConfusion h
      split at h
      · exact Except.noConfusion h
      rw [Except.ok.injEq] at h
      subst h
      refine ⟨?_, rfl, rfl⟩
      dsimp only
      exact calculateQuoteTotals_subtotal _ _ _
  | remove itemId =>
      simp only [applyItemOp, removeItem] at h
      split at h
      · exact Except.noConfusion h
      rw [Except.ok.injEq] at h
      subst h
      refine ⟨?_, rfl, rfl⟩
      dsimp only
      exact calculateQuoteTotals_subtotal _ _ _

/-- A successful line-item operation never touches the version
history. -/
theorem applyItemOp_ok_versions (env : Env) (db : Db) (op : ItemOp) (db2 : Db)
    (h : applyItemOp env db op = Except.ok db2) :
    db2.versions = db.versions := by
  cases op with
  | add req newId =>
      simp only [applyItemOp, addItem] at h
      split at h
      · exact Except.noConfusion h
      split at h
      · exact Except.noConfusion h
      rw [Except.ok.injEq] at h
      subst h
      rfl
  | update itemId req =>
      simp only [applyItemOp, updateItem] at h
      split at h
      · exact Except.noConfusion h
      split at h
      · exact Except.noConfusion h
      split at h
      · exact Except.noConfusion h
      rw [Except.ok.injEq] at h
      subst h
      rfl
  | remove itemId =>
      simp only [applyItemOp, removeItem] at h
      split at h
      · exact Except.noConfusion h
      rw [Except.ok.injEq] at h
      subst h
      rfl

/-- Evaluation of the scenario-3 add: the persisted line carries
`metalPrice = 0`, `metalTotal = 0`, `lineTotal = 0` although the
request supplied `metalPrice = 1000` and `metalGrams = 5`. -/
theorem addItem_gold : addItem env0 db0 goldItemReq 2 = Except.ok dbGold := by
  unfold addItem
  rw [if_neg (by decide), if_neg (by decide)]
  simp only [goldItemReq, env0, db0, quote0, item900, dbGold, goldItem,
    jsOrOne, jsOrNullNat, jsOrNullString, extrasOf, calculateQuoteTotals,
    List.foldl, Except.ok.injEq, Db.mk.injEq, Quote.mk.injEq, QuoteItem.mk.injEq,
    Option.getD, strTrim]
  norm_num
  decide

/-! ## Claims -/

/-- C1: for every quote and every sequence of line-item add, update
and remove operations on it, after each successful operation the
quote's persisted `subtotal` equals the sum of `lineTotal` over all of
its current line items, its `markupAmt` equals
`subtotal × markupPct/100`, and its `totalZar` equals
`subtotal + markupAmt − discount`.  (`runItemOps` collects the
persisted state after each successful operation of the sequence;
failed operations write nothing.) -/
theorem quote_totals_consistent_after_each_item_op
    (env : Env) (db : Db) (ops : List ItemOp) (db2 : Db)
    (h : db2 ∈ runItemOps env db ops) :
    db2.quote.subtotal = itemsSubtotal db2.items ∧
    db2.quote.markupAmt = db2.quote.subtotal * (db2.quote.markupPct / 100) ∧
    db2.quote.totalZar = db2.quote.subtotal + db2.quote.markupAmt - db2.quote.discount := by
  induction ops generalizing db with
  | nil => exact absurd h (List.not_mem_nil db2)
  | cons op ops ih =>
      rw [runItemOps] at h
      cases happ : applyItemOp env db op with
      | ok dbNext =>
          rw [happ] at h
          rcases List.mem_cons.mp h with hEq | hTail
          · subst hEq
            exact applyItemOp_ok_totals env db op db2 happ
          · exact ih dbNext hTail
      | error e =>
          rw [happ] at h
          exact ih db h

/-- Witness for C1 at spec scenario 3: the sequence consisting of the
single gold-line add on the scenario-2 state. -/
theorem quote_totals_consistent_after_each_item_op_witness :
    dbAfterGold.quote.subtotal = itemsSubtotal dbAfterGold.items ∧
    dbAfterGold.quote.markupAmt = dbAfterGold.quote.subtotal * (dbAfterGold.quote.markupPct / 100) ∧
    dbAfterGold.quote.totalZar =
      dbAfterGold.quote.subtotal + dbAfterGold.quote.markupAmt - dbAfterGold.quote.discount :=
  quote_totals_consistent_after_each_item_op env0 db0 [ItemOp.add goldItemReq 2]
    dbAfterGold (show dbAfterGold ∈ [dbAfterGold] from List.mem_singleton.mpr rfl)

/-- C2: for all numeric cost inputs the Pricing Calculator's
`subTotal` equals the exact sum of its six cost components (labour,
material with optional 15 percent VAT and the loss factor, diamonds,
extra components with optional VAT, and the flat setting, packaging
and courier costs), its `retailPrice` equals
`subTotal × (1 + markupPercent/100)`, and its `costPrice` equals
`subTotal × costPriceMultiplier`. -/
theorem pricing_calculator_correct (i : CalcInputs) :
    subTotal i =
      i.labourHours * i.labourRate
        + (i.materialWeight * i.materialPrice
            + (if i.materialAddVat then i.materialWeight * i.materialPrice * 0.15 else 0))
            * i.materialLossFactor
        + (i.diamonds.map (fun d => d.costEach * d.quantity)).sum
        + (i.components.map (fun c => c.costExVat * (if c.addVat then 1.15 else 1))).sum
        + i.settingCost + i.packagingCost + i.courierCost ∧
    retailPrice i = subTotal i * (1 + i.markupPercent / 100) ∧
    costPrice i = subTotal i * i.costPriceMultiplier := by
  refine ⟨?_, ?_, rfl⟩
  · unfold subTotal labourTotal materialTotal materialVat materialBase
      diamondsTotal componentsTotal
    rw [foldl_add_eq_sum (fun d => d.costEach * d.quantity) i.diamonds 0,
        foldl_add_eq_sum (fun c => c.costExVat * (if c.addVat then 1.15 else 1)) i.components 0]
    ring
  · unfold retailPrice markupAmount
    ring

/-- C3, counterexample: the claim predicts that the scenario-3 add
(metalGrams 5, metalPrice 1000, quantity 1, no labour or accessories)
persists `metalTotal = 5 × 1000 = 5000`, `lineTotal = 5000` and raises
the subtotal from 900 to 5900.  The handler in fact hardcodes
`metalPrice = 0, metalTotal = 0` and never destructures the supplied
`metalPrice`, so the persisted line has `lineTotal = 0` and the
subtotal stays 900. -/
theorem add_item_ignores_supplied_metal_price_counterexample :
    goldItemReq.metalGrams = some 5 ∧ goldItemReq.metalPrice = some 1000 ∧
    goldItemReq.quantity = some 1 ∧
    addItem env0 db0 goldItemReq 2 = Except.ok dbGold ∧
    dbGold.items.map QuoteItem.metalPrice = [0, 0] ∧
    dbGold.items.map QuoteItem.metalTotal = [0, 0] ∧
    dbGold.items.map QuoteItem.lineTotal = [900, 0] ∧
    db0.quote.subtotal = 900 ∧ dbGold.quote.subtotal = 900 :=
  ⟨rfl, rfl, rfl, addItem_gold, rfl, rfl, rfl, rfl, rfl⟩

/-- C3, amended: when a line item is added the handler ignores any
supplied metal price — the persisted line always has `metalPrice = 0`
and `metalTotal = 0`, its `unitPrice` is `labourTotal + extrasTotal`,
its `lineTotal` is `unitPrice × quantity`, and the recomputed subtotal
is the old line-total sum plus this line's `lineTotal` (0 in the
scenario, leaving the subtotal at 900). -/
theorem add_item_metal_always_zero (env : Env) (db : Db) (req : AddItemRequest)
    (newId : ℕ) (db2 : Db) (h : addItem env db req newId = Except.ok db2) :
    ∃ item, db2.items = db.items ++ [item] ∧
      item.metalPrice = 0 ∧ item.metalTotal = 0 ∧
      item.unitPrice = item.labourTotal + item.extrasTotal ∧
      item.lineTotal = item.unitPrice * (item.quantity : ℚ) ∧
      db2.quote.subtotal = itemsSubtotal db.items + item.lineTotal := by
  unfold addItem at h
  split at h
  · exact Except.noConfusion h
  split at h
  · exact Except.noConfusion h
  rw [Except.ok.injEq] at h
  subst h
  refine ⟨_, rfl, rfl, rfl, ?_, rfl, ?_⟩
  · dsimp only
    ring
  · dsimp only
    rw [calculateQuoteTotals_subtotal, itemsSubtotal_append]

/-- Witness for the amended C3 at the scenario-3 input. -/
theorem add_item_metal_always_zero_witness :
    ∃ item, dbGold.items = db0.items ++ [item] ∧
      item.metalPrice = 0 ∧ item.metalTotal = 0 ∧
      item.unitPrice = item.labourTotal + item.extrasTotal ∧
      item.lineTotal = item.unitPrice * (item.quantity : ℚ) ∧
      dbGold.quote.subtotal = itemsSubtotal db0.items + item.lineTotal :=
  add_item_metal_always_zero env0 db0 goldItemReq 2 dbGold addItem_gold

/-- C4, counterexample: starting from a state satisfying the claimed
invariant (subtotal 900, markup 30 percent, markupAmt 270, total
1170), a successful direct update supplying only `subtotal = 100`
persists subtotal 100 while leaving `markupAmt = 270` (the PUT handler
never writes `markupAmt`) and `totalZar = 1170`, violating both
claimed equations. -/
theorem direct_update_breaks_totals_equation_counterexample :
    updateQuote db0 updSubtotalOnlyReq = Except.ok dbSub100 ∧
    dbSub100.quote.subtotal = 100 ∧ dbSub100.quote.markupPct = 30 ∧
    dbSub100.quote.markupAmt = 270 ∧ dbSub100.quote.discount = 0 ∧
    dbSub100.quote.totalZar = 1170 ∧
    ¬ dbSub100.quote.markupAmt = dbSub100.quote.subtotal * (dbSub100.quote.markupPct / 100) ∧
    ¬ dbSub100.quote.totalZar =
        dbSub100.quote.subtotal + dbSub100.quote.markupAmt - dbSub100.quote.discount :=
  ⟨rfl, rfl, rfl, rfl, rfl, rfl,
   by norm_num [dbSub100, quote0], by norm_num [dbSub100, quote0]⟩

/-- C4, amended: after every successful line-item operation the
persisted fields do satisfy `markupAmt = subtotal × markupPct/100` and
`totalZar = subtotal + markupAmt − discount`; but the direct paths do
not maintain them — a direct update persists caller-supplied
`subtotal`/`totalZar` verbatim and never writes `markupAmt`, and
create persists `markupAmt = 0` with caller-supplied
`subtotal`/`totalZar` — so the equation can be violated after a direct
update or create. -/
theorem derived_totals_update_policy :
    (∀ env db op db2, applyItemOp env db op = Except.ok db2 →
        db2.quote.markupAmt = db2.quote.subtotal * (db2.quote.markupPct / 100) ∧
        db2.quote.totalZar = db2.quote.subtotal + db2.quote.markupAmt - db2.quote.discount) ∧
    (∀ db req db2, updateQuote db req = Except.ok db2 →
        db2.quote.markupAmt = db.quote.markupAmt ∧
        db2.quote.subtotal = req.subtotal.getD db.quote.subtotal ∧
        db2.quote.totalZar = req.totalZar.getD db.quote.totalZar) ∧
    (∀ env ce req id qn q, createQuote env ce req id qn = Except.ok q →
        q.markupAmt = 0 ∧ q.subtotal = req.subtotal.getD 0 ∧
        q.totalZar = req.totalZar.getD 0) := by
  refine ⟨?_, ?_, ?_⟩
  · intro env db op db2 h
    exact (applyItemOp_ok_totals env db op db2 h).2
  · intro db req db2 h
    unfold updateQuote at h
    split at h
    · exact Except.noConfusion h
    rw [Except.ok.injEq] at h
    subst h
    exact ⟨rfl, rfl, rfl⟩
  · intro env ce req id qn q h
    unfold createQuote at h
    split at h
    · exact Except.noConfusion h
    split at h
    · exact Except.noConfusion h
    rw [Except.ok.injEq] at h
    subst h
    exact ⟨rfl, rfl, rfl⟩

/-- Witness for the amended C4: the direct update supplying only
`subtotal = 100` keeps `markupAmt` and `totalZar` at their old
values. -/
theorem derived_totals_update_policy_witness :
    dbSub100.quote.markupAmt = db0.quote.markupAmt ∧
    dbSub100.quote.subtotal = updSubtotalOnlyReq.subtotal.getD db0.quote.subtotal ∧
    dbSub100.quote.totalZar = updSubtotalOnlyReq.totalZar.getD db0.quote.totalZar :=
  derived_totals_update_policy.2.1 db0 updSubtotalOnlyReq dbSub100 rfl

/-- C5: every successful direct update and every successful
restore-to-version increments the quote's version counter by exactly
1; hence across any sequence of such operations the persisted version
is strictly increasing, never decreasing, and never skips a value on a
successful path. -/
theorem version_increments_by_one (db : Db) :
    (∀ req db2, updateQuote db req = Except.ok db2 →
        db2.quote.version = db.quote.version + 1) ∧
    (∀ vn db2, restore db vn = Except.ok db2 →
        db2.quote.version = db.quote.version + 1) := by
  constructor
  · intro req db2 h
    unfold updateQuote at h
    split at h
    · exact Except.noConfusion h
    rw [Except.ok.injEq] at h
    subst h
    rfl
  · intro vn db2 h
    unfold restore at h
    split at h
    · exact Except.noConfusion h
    dsimp only at h
    split at h
    · exact Except.noConfusion h
    rw [Except.ok.injEq] at h
    subst h
    rfl

/-- Witness for C5 at spec scenario 5: the markup-only direct update
takes the version from 1 to 2. -/
theorem version_increments_by_one_witness :
    dbAfterUpd.quote.version = db0.quote.version + 1 :=
  (version_increments_by_one db0).1 updMarkupReq dbAfterUpd rfl

/-- C6, counterexample: the status-update route is a persisted
mutating write to the quote record (DRAFT becomes SENT), yet it writes
no version snapshot: the version list stays empty. -/
theorem status_update_without_snapshot_counterexample :
    db0.quote.status = "DRAFT" ∧ db0.versions = [] ∧
    updateStatus db0 (some "SENT") = Except.ok dbSent ∧
    dbSent.quote.status = "SENT" ∧ dbSent.versions = [] :=
  ⟨rfl, rfl, rfl, rfl, rfl⟩

/-- C6, amended: only the direct-update route (when the version
counter is positive and no snapshot exists at that number yet) and the
restore route write a snapshot of the pre-mutation state; the
status-update route and the aggregate-total rewrites of the three
line-item routes write none. -/
theorem snapshot_write_policy :
    (∀ db req db2, 0 < db.quote.version →
        hasVersion db db.quote.id db.quote.version = false →
        updateQuote db req = Except.ok db2 →
        db2.versions = db.versions ++
          [{ quoteId := db.quote.id, versionNum := db.quote.version,
             snapshotJson := db.quote,
             changeNotes := some (jsOrString req.changeNotes "Quote updated") }]) ∧
    (∀ db vn db2, restore db vn = Except.ok db2 →
        db2.versions = db.versions ++
          [{ quoteId := db.quote.id, versionNum := db.quote.version,
             snapshotJson := db.quote,
             changeNotes := some ("Restored to version " ++ toString vn) }]) ∧
    (∀ db s db2, updateStatus db s = Except.ok db2 → db2.versions = db.versions) ∧
    (∀ env db op db2, applyItemOp env db op = Except.ok db2 →
        db2.versions = db.versions) := by
  refine ⟨?_, ?_, ?_, ?_⟩
  · intro db req db2 hv hdup h
    unfold updateQuote at h
    split at h
    · exact Except.noConfusion h
    rw [Except.ok.injEq] at h
    subst h
    simp [hv, hdup]
  · intro db vn db2 h
    unfold restore at h
    split at h
    · exact Except.noConfusion h
    dsimp only at h
    split at h
    · exact Except.noConfusion h
    rw [Except.ok.injEq] at h
    subst h
    rfl
  · intro db s db2 h
    unfold updateStatus at h
    split at h
    · exact Except.noConfusion h
    split at h
    · rw [Except.ok.injEq] at h
      subst h
      rfl
    · exact Except.noConfusion h
  · intro env db op db2 h
    exact applyItemOp_ok_versions env db op db2 h

/-- Witness for the amended C6: the SENT status update leaves the
version list untouched, while the subtotal-only direct update appends
exactly the pre-state snapshot. -/
theorem snapshot_write_policy_witness :
    dbSent.versions = db0.versions ∧
    dbSub100.versions = db0.versions ++
      [{ quoteId := db0.quote.id, versionNum := db0.quote.version,
         snapshotJson := db0.quote,
         changeNotes := some (jsOrString updSubtotalOnlyReq.changeNotes "Quote updated") }] :=
  ⟨snapshot_write_policy.2.2.1 db0 (some "SENT") dbSent rfl,
   snapshot_write_policy.1 db0 updSubtotalOnlyReq dbSub100 (by decide) (by decide) rfl⟩

/-- C7, counterexample: in a state whose history already holds a
snapshot at the quote's current version number (reachable under the
concurrent writers of spec section 5), a restore whose target version
exists does NOT swallow the duplicate-snapshot conflict: it fails with
the route's 500 error and the primary mutation does not proceed,
refuting the claim that the swallowing covers the restore path. -/
theorem restore_snapshot_conflict_not_swallowed_counterexample :
    hasVersion dbDup dbDup.quote.id dbDup.quote.version = true ∧
    (findVersion dbDup 1).isSome = true ∧
    restore dbDup 1 = Except.error (ApiError.server "Failed to restore quote version") :=
  ⟨rfl, rfl, rfl⟩

/-- C7, amended: the duplicate-snapshot swallow belongs to the
direct-update path only — a direct update whose snapshot write hits an
existing `(quoteId, versionNum)` skips the snapshot and still applies
the primary update — while the restore path's snapshot write is
unguarded, so with a snapshot already present at the current version a
restore to an existing version fails with a server error and performs
no mutation. -/
theorem snapshot_conflict_handling :
    (∀ db req, req.customerId.isNone = false →
        hasVersion db db.quote.id db.quote.version = true →
        ∃ db2, updateQuote db req = Except.ok db2 ∧
          db2.versions = db.versions ∧
          db2.quote.version = db.quote.version + 1) ∧
    (∀ db vn, hasVersion db db.quote.id db.quote.version = true →
        (findVersion db vn).isSome = true →
        restore db vn = Except.error (ApiError.server "Failed to restore quote version")) := by
  constructor
  · intro db req hc hdup
    unfold updateQuote
    rw [if_neg (by simp [hc])]
    refine ⟨_, rfl, ?_, rfl⟩
    simp [hdup]
  · intro db vn hdup hfind
    unfold restore
    cases hv : findVersion db vn with
    | none => rw [hv] at hfind; exact Bool.noConfusion hfind
    | some v =>
        simp only [hv]
        rw [if_pos hdup]

/-- Witness for the amended C7: on `dbDup` (snapshot already present
at the current version 1) a direct update succeeds without a new
snapshot, while restore to the existing version 1 fails. -/
theorem snapshot_conflict_handling_witness :
    (∃ db2, updateQuote dbDup updMarkupReq = Except.ok db2 ∧
        db2.versions = dbDup.versions ∧
        db2.quote.version = dbDup.quote.version + 1) ∧
    restore dbDup 1 = Except.error (ApiError.server "Failed to restore quote version") :=
  ⟨snapshot_conflict_handling.1 dbDup updMarkupReq rfl rfl,
   snapshot_conflict_handling.2 dbDup 1 rfl rfl⟩

/-- C8: a successful restore-to-version writes exactly the
snapshot-captured subset — markup percentage, discount, notes,
subtotal, markup amount, total — plus the incremented version counter;
the line items, the status, the customer reference and every other
quote field are left unchanged. -/
theorem restore_applies_snapshot_subset_only (db : Db) (vn : ℕ) (db2 : Db)
    (h : restore db vn = Except.ok db2) :
    db2.items = db.items ∧
    db2.quote.status = db.quote.status ∧
    db2.quote.customerId = db.quote.customerId ∧
    db2.quote.id = db.quote.id ∧
    db2.quote.quoteNumber = db.quote.quoteNumber ∧
    db2.quote.skuCode = db.quote.skuCode ∧
    db2.quote.validUntil = db.quote.validUntil ∧
    db2.quote.quoteData = db.quote.quoteData ∧
    db2.quote.version = db.quote.version + 1 ∧
    ∃ v, findVersion db vn = some v ∧
      db2.quote.markupPct = v.snapshotJson.markupPct ∧
      db2.quote.discount = v.snapshotJson.discount ∧
      db2.quote.notes = v.snapshotJson.notes ∧
      db2.quote.subtotal = v.snapshotJson.subtotal ∧
      db2.quote.markupAmt = v.snapshotJson.markupAmt ∧
      db2.quote.totalZar = v.snapshotJson.totalZar := by
  unfold restore at h
  cases hv : findVersion db vn with
  | none => rw [hv] at h; exact Except.noConfusion h
  | some v =>
      rw [hv] at h
      dsimp only at h
      split at h
      · exact Except.noConfusion h
      rw [Except.ok.injEq] at h
      subst h
      exact ⟨rfl, rfl, rfl, rfl, rfl, rfl, rfl, rfl, rfl,
             v, rfl, rfl, rfl, rfl, rfl, rfl, rfl⟩

/-- Witness for C8: restoring the markup-40 state to version 1. -/
theorem restore_applies_snapshot_subset_only_witness :
    dbAfterRestore.items = dbAfterUpd.items ∧
    dbAfterRestore.quote.status = dbAfterUpd.quote.status ∧
    dbAfterRestore.quote.customerId = dbAfterUpd.quote.customerId ∧
    dbAfterRestore.quote.id = dbAfterUpd.quote.id ∧
    dbAfterRestore.quote.quoteNumber = dbAfterUpd.quote.quoteNumber ∧
    dbAfterRestore.quote.skuCode = dbAfterUpd.quote.skuCode ∧
    dbAfterRestore.quote.validUntil = dbAfterUpd.quote.validUntil ∧
    dbAfterRestore.quote.quoteData = dbAfterUpd.quote.quoteData ∧
    dbAfterRestore.quote.version = dbAfterUpd.quote.version + 1 ∧
    ∃ v, findVersion dbAfterUpd 1 = some v ∧
      dbAfterRestore.quote.markupPct = v.snapshotJson.markupPct ∧
      dbAfterRestore.quote.discount = v.snapshotJson.discount ∧
      dbAfterRestore.quote.notes = v.snapshotJson.notes ∧
      dbAfterRestore.quote.subtotal = v.snapshotJson.subtotal ∧
      dbAfterRestore.quote.markupAmt = v.snapshotJson.markupAmt ∧
      dbAfterRestore.quote.totalZar = v.snapshotJson.totalZar :=
  restore_applies_snapshot_subset_only dbAfterUpd 1 dbAfterRestore rfl

/-- C9: restoring to a version number for which no snapshot exists
answers the not-found error; in this embedding an error result is
returned before any write, so the quote row, the line items, the
version counter and the version history are all left unchanged. -/
theorem restore_missing_version_not_found (db : Db) (vn : ℕ)
    (h : findVersion db vn = none) :
    restore db vn = Except.error (ApiError.notFound "Version not found") := by
  unfold restore
  rw [h]

/-- Witness for C9: version 99 of the scenario-2 quote does not exist. -/
theorem restore_missing_version_not_found_witness :
    restore db0 99 = Except.error (ApiError.notFound "Version not found") :=
  restore_missing_version_not_found db0 99 rfl

/-- C10: the status-update route, given a status in the six-value
enum, rewrites only the quote's status field — the version counter,
subtotal, markup amount, discount, total and all other fields are
unchanged and no version snapshot is written (the resulting state
differs from the input state only in `quote.status`). -/
theorem status_update_changes_only_status (db : Db) (s : String)
    (hs : validStatuses.contains s = true) :
    updateStatus db (some s) =
      Except.ok { db with quote := { db.quote with status := s } } := by
  unfold updateStatus
  dsimp only
  rw [if_pos hs]

/-- Witness for C10: the SENT update on the scenario-2 state. -/
theorem status_update_changes_only_status_witness :
    updateStatus db0 (some "SENT") =
      Except.ok { db0 with quote := { db0.quote with status := "SENT" } } :=
  status_update_changes_only_status db0 "SENT" rfl

end TDV
